import Mathlib

set_option autoImplicit false

/-!
Shallow embedding of the parameter-normalization and filter-construction
logic of the `mcp-server-google-analytics` repository
(`src/mcp_server_google_analytics/`): the filter-expression builder of
`server.py`, the parameter preprocessing of `utils.py`, and the tool
bodies of `reporting.py` and `admin.py` that the verified properties
concern.  Python dictionaries are modelled as insertion-ordered
association lists, Python's dynamic values as the `PyVal` universe, and
raised exceptions as `Except` errors.  The Google client library and the
JSON decoder are external collaborators and appear as oracle parameters.
-/

namespace GAMCP

/-- A Python/JSON-style dynamic value. Dictionaries are insertion-ordered
association lists with string keys, matching the JSON-shaped inputs the
server receives. -/
inductive PyVal where
  | vstr (s : String)
  | vint (n : Int)
  | vbool (b : Bool)
  | vnone
  | vlist (xs : List PyVal)
  | vdict (kvs : List (String × PyVal))

/-- A Python dict with string keys (insertion-ordered association list). -/
abbrev PyDict := List (String × PyVal)

/-- Key lookup in a dict (first match; literals have unique keys). Models
both `k in d` (via `isSome`) and `d[k]`. -/
def dlookup (k : String) : PyDict → Option PyVal
  | [] => none
  | (k', v) :: rest => if k' = k then some v else dlookup k rest

/-- Python `d.get(k, default)`. -/
def dgetD (kvs : PyDict) (k : String) (default : PyVal) : PyVal :=
  (dlookup k kvs).getD default

/-- The Python exceptions the embedded code can raise. -/
inductive PyErr where
  | keyError (k : String)
  | typeError (msg : String)
  | attributeError (msg : String)
  | valueError (msg : String)
  deriving Repr, DecidableEq

/-- Using a value as a dict; non-mapping operands raise `TypeError`. -/
def asDict : PyVal → Except PyErr PyDict
  | .vdict kvs => .ok kvs
  | _ => .error (.typeError "expected a mapping")

/-- Indexing `d[k]` with a `KeyError` on absence. -/
def keyGet (kvs : PyDict) (k : String) : Except PyErr PyVal :=
  match dlookup k kvs with
  | some v => .ok v
  | none => .error (.keyError k)

/-! ### The vendor filter types (`google.analytics.data_v1beta.types`)

Only the structure of the constructed objects is modelled; numeric
payloads are kept as the raw Python values handed to `int(...)` /
`float(...)`. -/

/-- The `Filter.StringFilter.MatchType` members. -/
inductive MatchType where
  | MATCH_TYPE_UNSPECIFIED
  | EXACT
  | BEGINS_WITH
  | ENDS_WITH
  | CONTAINS
  | FULL_REGEXP
  | PARTIAL_REGEXP
  deriving Repr, DecidableEq

/-- The `Filter.NumericFilter.Operation` members. -/
inductive NumericOperation where
  | OPERATION_UNSPECIFIED
  | EQUAL
  | LESS_THAN
  | LESS_THAN_OR_EQUAL
  | GREATER_THAN
  | GREATER_THAN_OR_EQUAL
  deriving Repr, DecidableEq

/-- A `NumericValue` proto: a fresh instance is unset; at most one of the
two variants is then assigned. -/
inductive NumericValueRepr where
  | unset
  | int64 (v : PyVal)
  | double (v : PyVal)

/-- The predicate field of a `Filter` proto. `noPredicate` is a `Filter`
on which no predicate member was assigned; `emptyFilter` exists in the
vendor schema (matches unset/empty field). -/
inductive LeafPredicate where
  | noPredicate
  | stringFilter (match_type : MatchType) (value : PyVal) (case_sensitive : PyVal)
  | numericFilter (operation : NumericOperation) (value : NumericValueRepr)
  | betweenFilter (from_value : NumericValueRepr) (to_value : NumericValueRepr)
  | inListFilter (values : PyVal) (case_sensitive : PyVal)
  | emptyFilter

/-- A `Filter` proto: a field name plus the chosen predicate. -/
structure GAFilter where
  field_name : PyVal
  predicate : LeafPredicate

/-- A `FilterExpression` proto. -/
inductive FilterExpr where
  | leaf (f : GAFilter)
  | andGroup (es : List FilterExpr)
  | orGroup (es : List FilterExpr)
  | notExpr (e : FilterExpr)

/-- Resolution `getattr(Filter.StringFilter.MatchType, token)`: an unknown token
raises `AttributeError`, a non-string raises `TypeError`. -/
def resolveMatchType : PyVal → Except PyErr MatchType
  | .vstr s =>
    if s = "MATCH_TYPE_UNSPECIFIED" then .ok .MATCH_TYPE_UNSPECIFIED
    else if s = "EXACT" then .ok .EXACT
    else if s = "BEGINS_WITH" then .ok .BEGINS_WITH
    else if s = "ENDS_WITH" then .ok .ENDS_WITH
    else if s = "CONTAINS" then .ok .CONTAINS
    else if s = "FULL_REGEXP" then .ok .FULL_REGEXP
    else if s = "PARTIAL_REGEXP" then .ok .PARTIAL_REGEXP
    else .error (.attributeError s)
  | _ => .error (.typeError "attribute name must be string")

/-- Resolution `getattr(Filter.NumericFilter.Operation, token)`. -/
def resolveOperation : PyVal → Except PyErr NumericOperation
  | .vstr s =>
    if s = "OPERATION_UNSPECIFIED" then .ok .OPERATION_UNSPECIFIED
    else if s = "EQUAL" then .ok .EQUAL
    else if s = "LESS_THAN" then .ok .LESS_THAN
    else if s = "LESS_THAN_OR_EQUAL" then .ok .LESS_THAN_OR_EQUAL
    else if s = "GREATER_THAN" then .ok .GREATER_THAN
    else if s = "GREATER_THAN_OR_EQUAL" then .ok .GREATER_THAN_OR_EQUAL
    else .error (.attributeError s)
  | _ => .error (.typeError "attribute name must be string")

/-- server.py lines 316-321 / 330-341: a fresh `NumericValue()` gets its
`int64_value` member when that key is present, else its `double_value`
member when that key is present, and otherwise stays unset (the source
has no `else` branch). -/
def buildNumericValue (m : PyDict) : NumericValueRepr :=
  match dlookup "int64_value" m with
  | some v => .int64 v
  | none =>
    match dlookup "double_value" m with
    | some v => .double v
    | none => .unset

/-- server.py lines 302-354: the `"filter" in filter_config` branch of
`build_filter_expression`. Reads `field_name` (a `KeyError` when absent)
and then dispatches on the first present key among `string_filter`,
`numeric_filter`, `between_filter`, `in_list_filter`; when none is
present the `Filter` is returned with no predicate member set. -/
def buildLeaf (fdv : PyVal) : Except PyErr FilterExpr := do
  let fd ← asDict fdv
  let fn ← keyGet fd "field_name"
  match dlookup "string_filter" fd with
  | some sfv => do
    let sfd ← asDict sfv
    let mt ← resolveMatchType (dgetD sfd "match_type" (.vstr "EXACT"))
    let v ← keyGet sfd "value"
    pure (.leaf ⟨fn, .stringFilter mt v (dgetD sfd "case_sensitive" (.vbool false))⟩)
  | none =>
    match dlookup "numeric_filter" fd with
    | some nfv => do
      let nfd ← asDict nfv
      let vd ← keyGet nfd "value"
      let vdd ← asDict vd
      let opv ← keyGet nfd "operation"
      let op ← resolveOperation opv
      pure (.leaf ⟨fn, .numericFilter op (buildNumericValue vdd)⟩)
    | none =>
      match dlookup "between_filter" fd with
      | some bfv => do
        let bfd ← asDict bfv
        let fvv ← keyGet bfd "from_value"
        let fvd ← asDict fvv
        let tvv ← keyGet bfd "to_value"
        let tvd ← asDict tvv
        pure (.leaf ⟨fn, .betweenFilter (buildNumericValue fvd) (buildNumericValue tvd)⟩)
      | none =>
        match dlookup "in_list_filter" fd with
        | some ilv => do
          let ild ← asDict ilv
          let vs ← keyGet ild "values"
          pure (.leaf ⟨fn, .inListFilter vs (dgetD ild "case_sensitive" (.vbool false))⟩)
        | none => pure (.leaf ⟨fn, .noPredicate⟩)

theorem pair_sizeOf_lt_of_mem {k : String} {v : PyVal} {kvs : PyDict}
    (h : (k, v) ∈ kvs) : sizeOf v < sizeOf kvs := by
  have h1 := List.sizeOf_lt_of_mem h
  have h2 : sizeOf v < sizeOf (k, v) := by
    simp only [Prod.mk.sizeOf_spec]
    omega
  omega

theorem dlookup_mem {k : String} {v : PyVal} :
    ∀ {kvs : PyDict}, dlookup k kvs = some v → (k, v) ∈ kvs := by
  intro kvs
  induction kvs with
  | nil => intro h; simp [dlookup] at h
  | cons kv rest ih =>
    obtain ⟨k', v'⟩ := kv
    intro h
    rw [dlookup] at h
    by_cases hk : k' = k
    · simp only [hk, if_pos rfl] at h
      cases h
      subst hk
      exact List.mem_cons_self _ _
    · simp only [if_neg hk] at h
      exact List.mem_cons_of_mem _ (ih h)

theorem dlookup_sizeOf_lt {k : String} {v : PyVal} {kvs : PyDict}
    (h : dlookup k kvs = some v) : sizeOf v < sizeOf kvs :=
  pair_sizeOf_lt_of_mem (dlookup_mem h)

mutual

/-- server.py lines 302-383, `build_filter_expression`: dispatch on the
first present key in source order `filter`, `and_group`, `or_group`,
`not_expression`; when none of the four is present the source raises
`ValueError("Invalid filter configuration: ...")`.  Group members and the
negated node must be mappings in this model (in the source a non-mapping
there fails later, inside the vendor constructors). -/
def build_filter_expression (kvs : PyDict) : Except PyErr FilterExpr :=
  match hf : dlookup "filter" kvs with
  | some fdv => buildLeaf fdv
  | none =>
    match ha : dlookup "and_group" kvs with
    | some (.vdict ag) =>
      match he : dlookup "expressions" ag with
      | some (.vlist xs) =>
        match buildExprList xs with
        | .ok es => .ok (.andGroup es)
        | .error e => .error e
      | some _ => .error (.typeError "expressions must be a list")
      | none => .error (.keyError "expressions")
    | some _ => .error (.typeError "and_group must be a mapping")
    | none =>
      match ho : dlookup "or_group" kvs with
      | some (.vdict og) =>
        match he : dlookup "expressions" og with
        | some (.vlist xs) =>
          match buildExprList xs with
          | .ok es => .ok (.orGroup es)
          | .error e => .error e
        | some _ => .error (.typeError "expressions must be a list")
        | none => .error (.keyError "expressions")
      | some _ => .error (.typeError "or_group must be a mapping")
      | none =>
        match hn : dlookup "not_expression" kvs with
        | some (.vdict ne) =>
          match build_filter_expression ne with
          | .ok e => .ok (.notExpr e)
          | .error e => .error e
        | some _ => .error (.typeError "not_expression must be a mapping")
        | none => .error (.valueError "Invalid filter configuration")
termination_by sizeOf kvs
decreasing_by
  all_goals simp_wf
  · have h1 := dlookup_sizeOf_lt ha
    have h2 := dlookup_sizeOf_lt he
    simp only [PyVal.vdict.sizeOf_spec, PyVal.vlist.sizeOf_spec] at h1 h2
    omega
  · have h1 := dlookup_sizeOf_lt ho
    have h2 := dlookup_sizeOf_lt he
    simp only [PyVal.vdict.sizeOf_spec, PyVal.vlist.sizeOf_spec] at h1 h2
    omega
  · have h1 := dlookup_sizeOf_lt hn
    simp only [PyVal.vdict.sizeOf_spec] at h1
    omega

/-- The loop over `expressions` in the `and_group`/`or_group` branches:
each entry is built recursively, the first failure aborts the build. -/
def buildExprList (xs : List PyVal) : Except PyErr (List FilterExpr) :=
  match xs with
  | [] => .ok []
  | .vdict kvs :: rest =>
    match build_filter_expression kvs with
    | .ok e =>
      match buildExprList rest with
      | .ok es => .ok (e :: es)
      | .error err => .error err
    | .error err => .error err
  | _ :: _ => .error (.typeError "filter expression must be a mapping")
termination_by sizeOf xs
decreasing_by
  all_goals simp_wf
  all_goals omega

end

/-! ### `normalize_filter_keys` (server.py lines 216-259) -/

/-- Key lookup in a string-valued dict (for the `key_mappings` table). -/
def tableGet (k : String) : List (String × String) → Option String
  | [] => none
  | (k2, v) :: rest => if k2 = k then some v else tableGet k rest

/-- The `key_mappings` dict literal of `normalize_filter_keys`. -/
def filterKeyMappings : List (String × String) :=
  [("fieldName", "field_name"),
   ("matchType", "match_type"),
   ("caseSensitive", "case_sensitive"),
   ("int64Value", "int64_value"),
   ("doubleValue", "double_value"),
   ("fromValue", "from_value"),
   ("toValue", "to_value"),
   ("stringFilter", "string_filter"),
   ("numericFilter", "numeric_filter"),
   ("betweenFilter", "between_filter"),
   ("inListFilter", "in_list_filter"),
   ("andGroup", "and_group"),
   ("orGroup", "or_group"),
   ("notExpression", "not_expression")]

/-- Lookup `key_mappings.get(key, key)`: each recognized camelCase key maps to
its snake_case form, every other key passes through unchanged. -/
def mapFilterKey (k : String) : String :=
  (tableGet k filterKeyMappings).getD k

mutual

/-- server.py `normalize_filter_keys`: a non-dict argument is returned
unchanged; a dict gets every key mapped and dict values (and dict items
of list values) normalized recursively. Pure: builds a new structure. -/
def normalize_filter_keys : PyVal → PyVal
  | .vdict kvs => .vdict (normalizePairs kvs)
  | v => v

/-- The `for key, value in data.items()` loop of `normalize_filter_keys`. -/
def normalizePairs : List (String × PyVal) → List (String × PyVal)
  | [] => []
  | (k, v) :: rest => (mapFilterKey k, normalizeEntry v) :: normalizePairs rest

/-- How one dict value is normalized: recurse on dicts, item-normalize
lists, pass every other value through. -/
def normalizeEntry : PyVal → PyVal
  | .vdict kvs => .vdict (normalizePairs kvs)
  | .vlist items => .vlist (normalizeItems items)
  | v => v

/-- The list comprehension: dict items are normalized, others unchanged
(nested lists are not descended into). -/
def normalizeItems : List PyVal → List PyVal
  | [] => []
  | .vdict kvs :: rest => .vdict (normalizePairs kvs) :: normalizeItems rest
  | v :: rest => v :: normalizeItems rest

end

/-! ### Parameter preprocessing (utils.py lines 135-194)

`json.loads` is Python standard-library code, passed in as an oracle:
`.ok v` is a successful parse, `.error msg` a `json.JSONDecodeError`
with message `msg`. -/

/-- A `json.loads` behaviour. -/
abbrev JsonLoads := String → Except String PyVal

/-- The annotated domain of `preprocess_list_param`:
`Union[List[str], str, None]`. -/
inductive ListParam where
  | pnone
  | pstr (s : String)
  | plist (xs : List PyVal)

/-- The annotated domain of `preprocess_dict_param`:
`Union[Dict[str, Any], str, None]`. -/
inductive DictParam where
  | pnone
  | pdict (kvs : PyDict)
  | pstr (s : String)

/-- utils.py lines 135-164, `preprocess_list_param`: `None` passes
through, a list passes through, a string is JSON-parsed — a parsed list
is returned, any parse failure or non-list parse wraps the original
string in a one-element list. (The trailing `return None` of the source
is unreachable for arguments of the annotated type.) -/
def preprocess_list_param (loads : JsonLoads) : ListParam → Option (List PyVal)
  | .pnone => none
  | .plist xs => some xs
  | .pstr s =>
    match loads s with
    | .ok (.vlist xs) => some xs
    | .ok _ => some [.vstr s]
    | .error _ => some [.vstr s]

/-- The Python repr of a value's type, as interpolated into the
`Expected dict but got {type(parsed)}` message. -/
def pyTypeName : PyVal → String
  | .vstr _ => "<class 'str'>"
  | .vint _ => "<class 'int'>"
  | .vbool _ => "<class 'bool'>"
  | .vnone => "<class 'NoneType'>"
  | .vlist _ => "<class 'list'>"
  | .vdict _ => "<class 'dict'>"

/-- utils.py lines 167-194, `preprocess_dict_param`: `None` and dicts
pass through; a string is JSON-parsed, a non-dict parse raises
`ValueError` (not caught by the `except json.JSONDecodeError` clause),
and a parse failure raises
`ValueError("Invalid JSON string for filter parameter: ...")`. -/
def preprocess_dict_param (loads : JsonLoads) : DictParam → Except PyErr (Option PyDict)
  | .pnone => .ok none
  | .pdict kvs => .ok (some kvs)
  | .pstr s =>
    match loads s with
    | .ok (.vdict kvs) => .ok (some kvs)
    | .ok v => .error (.valueError ("Expected dict but got " ++ pyTypeName v))
    | .error e => .error (.valueError ("Invalid JSON string for filter parameter: " ++ e))

/-! ### Resource-path formatting (utils.py lines 91-102) -/

/-- Python `s.startswith(pref)`. -/
def pyStartsWith (s pref : String) : Bool :=
  pref.toList.isPrefixOf s.toList

/-- utils.py `format_parent_id`. -/
def format_parent_id (parent_id : String) : String :=
  if pyStartsWith parent_id "accounts/" then parent_id
  else "accounts/" ++ parent_id

/-- utils.py `format_property_id`. -/
def format_property_id (property_id : String) : String :=
  if pyStartsWith property_id "properties/" then property_id
  else "properties/" ++ property_id

/-! ### The tool layer (reporting.py, admin.py)

Vendor RPCs are oracle fields of `Env`; each tool returns its result
together with the list of requests it dispatched to the vendor, so that
"performs zero vendor calls" is the dispatched list being empty.
`utils.parse_date_string` reads the process clock, so it too is an
oracle field. -/

/-- The arguments of reporting.py `run_report` (values flow dynamically,
so dimension/metric names are kept as `PyVal`). -/
structure RunReportArgs where
  property_id : String
  date_ranges : List PyDict
  dimensions : List PyVal
  metrics : List PyVal
  dimension_filter : Option PyDict := none
  metric_filter : Option PyDict := none
  order_bys : Option (List PyDict) := none
  limit : Option Int := none
  offset : Option Int := none
  currency_code : Option String := none
  return_property_quota : Bool := false

/-- The assembled `RunReportRequest` proto: `none` in an optional field
means the field was never assigned on the request object. -/
structure RunReportRequest where
  property : String
  dimensions : List PyVal
  metrics : List PyVal
  date_ranges : List PyDict
  return_property_quota : Bool
  dimension_filter : Option PyDict
  metric_filter : Option PyDict
  order_bys : Option (List PyDict)
  limit : Option Int
  offset : Option Int
  currency_code : Option String

/-- Python truthiness of an optional dict (`None` and `{}` are falsy). -/
def truthyOptDict : Option PyDict → Bool
  | none => false
  | some kvs => !kvs.isEmpty

/-- Python truthiness of an optional list (`None` and `[]` are falsy). -/
def truthyOptList : Option (List PyDict) → Bool
  | none => false
  | some xs => !xs.isEmpty

/-- Python truthiness of an optional int (`None` and `0` are falsy). -/
def truthyOptInt : Option Int → Bool
  | none => false
  | some n => n != 0

/-- Python truthiness of an optional string (`None` and `""` are falsy). -/
def truthyOptStr : Option String → Bool
  | none => false
  | some s => s != ""

/-- reporting.py lines 486-509: the request assembly of `run_report`.
The property path is the unconditional f-string
`f"properties/{property_id}"`; each optional parameter is copied onto
the request only when truthy. -/
def buildRunReportRequest (a : RunReportArgs) : RunReportRequest where
  property := "properties/" ++ a.property_id
  dimensions := a.dimensions
  metrics := a.metrics
  date_ranges := a.date_ranges
  return_property_quota := a.return_property_quota
  dimension_filter := if truthyOptDict a.dimension_filter then a.dimension_filter else none
  metric_filter := if truthyOptDict a.metric_filter then a.metric_filter else none
  order_bys := if truthyOptList a.order_bys then a.order_bys else none
  limit := if truthyOptInt a.limit then a.limit else none
  offset := if truthyOptInt a.offset then a.offset else none
  currency_code := if truthyOptStr a.currency_code then a.currency_code else none

/-- The request admin.py `update_enhanced_measurement_settings` sends:
resource name plus the `FieldMask` paths. -/
structure UEMSRequest where
  name : String
  update_mask : List String
  deriving Repr, DecidableEq

/-- The process-wide state and the external collaborators: the two client
singletons of utils.py (`False` = still `None`), the default property id,
the clock-dependent date parser, and the vendor RPC behaviours
(`.error` = the vendor raised). -/
structure Env where
  analytics_client : Bool
  admin_client : Bool
  default_property_id : Option String
  parse_date : String → String
  runReportRPC : RunReportRequest → Except String PyVal
  listAccountSummariesRPC : Except String PyVal
  updateEMSRPC : UEMSRequest → Except String PyVal

/-- The `{"error": msg}` envelope. -/
def errEnvelope (msg : String) : PyVal :=
  .vdict [("error", .vstr msg)]

/-- reporting.py lines 417-519, `run_report`: guard on the client
singleton, assemble the request, dispatch, and convert any vendor
failure into the error envelope (the `try` wraps the whole body, so the
tool never raises). The successful flattening `proto_to_dict(response)`
is the oracle's `.ok` payload. -/
def run_report (env : Env) (a : RunReportArgs) : PyVal × List RunReportRequest :=
  if !env.analytics_client then (errEnvelope "Google Analytics client not initialized", [])
  else
    let request := buildRunReportRequest a
    match env.runReportRPC request with
    | .ok resp => (resp, [request])
    | .error e => (errEnvelope ("Error running report: " ++ e), [request])

/-- The arguments of reporting.py legacy `get_report`. -/
structure GetReportArgs where
  start_date : String
  end_date : String
  metrics : ListParam
  dimensions : ListParam := .pnone
  dimension_filter : DictParam := .pnone
  metric_filter : DictParam := .pnone
  property_id : Option String := none
  limit : Option Int := none
  offset : Option Int := none

/-- Python truthiness of a filter argument (`None`, `{}` and `""` are
falsy). -/
def truthyDictParam : DictParam → Bool
  | .pnone => false
  | .pdict kvs => !kvs.isEmpty
  | .pstr s => s != ""

/-- Python falsiness of `Optional[List]` (`None` and `[]` are falsy). -/
def falsyOptPyList : Option (List PyVal) → Bool
  | none => true
  | some [] => true
  | some (_ :: _) => false

/-- Python `a or b` over optional strings (`None` and `""` falsy). -/
def orStr (a b : Option String) : Option String :=
  match a with
  | some s => if s = "" then b else some s
  | none => b

/-- reporting.py lines 572-574: `result["parsed_date_ranges"] = [...]`
when the result is a dict without an `"error"` key (Python dict insertion
appends the new key last). -/
def attachParsedDates (dr : PyDict) : PyVal → PyVal
  | .vdict kvs =>
    if (dlookup "error" kvs).isSome then .vdict kvs
    else .vdict (kvs ++ [("parsed_date_ranges", .vlist [.vdict dr])])
  | v => v

/-- reporting.py lines 522-580, legacy `get_report`. The parameter
preprocessing (lines 540-544) runs before the `try` block, so a
`ValueError` raised by `preprocess_dict_param` propagates out of the
tool (the `Except.error` outcome); everything after the preprocessing
either returns an envelope early or delegates to `run_report`, which is
total, so the `try` at line 560 has nothing left to catch in this model.
The final `json.dumps(result, indent=2)` is elided: the returned dict
itself is the result. -/
def get_report (loads : JsonLoads) (env : Env) (a : GetReportArgs) :
    Except PyErr (PyVal × List RunReportRequest) := do
  let processed_metrics := preprocess_list_param loads a.metrics
  let processed_dimensions := preprocess_list_param loads a.dimensions
  let processed_dimension_filter ←
    if truthyDictParam a.dimension_filter then preprocess_dict_param loads a.dimension_filter
    else pure none
  let processed_metric_filter ←
    if truthyDictParam a.metric_filter then preprocess_dict_param loads a.metric_filter
    else pure none
  -- `if not processed_metrics:` — falsy when `None` or the empty list
  if falsyOptPyList processed_metrics then
    return (errEnvelope "Metrics parameter is required and must be a valid list", [])
  match orStr a.property_id env.default_property_id with
  | none => return (errEnvelope "No property ID provided", [])
  | some prop_id =>
    if prop_id = "" then
      return (errEnvelope "No property ID provided", [])
    else
      let parsed_start := env.parse_date a.start_date
      let parsed_end := env.parse_date a.end_date
      let date_range : PyDict :=
        [("start_date", .vstr parsed_start), ("end_date", .vstr parsed_end)]
      let (result, calls) := run_report env
        { property_id := prop_id
          date_ranges := [date_range]
          dimensions := (processed_dimensions.getD [])
          metrics := (processed_metrics.getD [])
          dimension_filter := processed_dimension_filter
          metric_filter := processed_metric_filter
          limit := a.limit
          offset := a.offset }
      -- `if isinstance(result, dict) and "error" not in result:` append key
      return (attachParsedDates date_range result, calls)

/-- admin.py lines 20-72, `get_account_summaries`: guard on the admin
client singleton, then a single `list_account_summaries` RPC; the
flattening of the paged result is the oracle's `.ok` payload. -/
def get_account_summaries (env : Env) : PyVal × Nat :=
  if !env.admin_client then
    (errEnvelope "Google Analytics admin client not initialized", 0)
  else
    match env.listAccountSummariesRPC with
    | .ok resp => (resp, 1)
    | .error e => (errEnvelope ("Error getting account summaries: " ++ e), 1)

/-- The optional settings arguments of
`update_enhanced_measurement_settings`. -/
structure UEMSArgs where
  property_id : String
  data_stream_id : String
  stream_enabled : Option Bool := none
  scrolls_enabled : Option Bool := none
  outbound_clicks_enabled : Option Bool := none
  site_search_enabled : Option Bool := none
  video_engagement_enabled : Option Bool := none
  file_downloads_enabled : Option Bool := none
  page_changes_enabled : Option Bool := none
  form_interactions_enabled : Option Bool := none
  search_query_parameter : Option String := none
  uri_query_parameter : Option String := none

/-- admin.py lines 443-485: the `update_fields` list, one entry per
supplied (`is not None`) optional argument, in source order. -/
def uemsUpdateFields (a : UEMSArgs) : List String :=
  (if a.stream_enabled.isSome then ["stream_enabled"] else []) ++
  (if a.scrolls_enabled.isSome then ["scrolls_enabled"] else []) ++
  (if a.outbound_clicks_enabled.isSome then ["outbound_clicks_enabled"] else []) ++
  (if a.site_search_enabled.isSome then ["site_search_enabled"] else []) ++
  (if a.video_engagement_enabled.isSome then ["video_engagement_enabled"] else []) ++
  (if a.file_downloads_enabled.isSome then ["file_downloads_enabled"] else []) ++
  (if a.page_changes_enabled.isSome then ["page_changes_enabled"] else []) ++
  (if a.form_interactions_enabled.isSome then ["form_interactions_enabled"] else []) ++
  (if a.search_query_parameter.isSome then ["search_query_parameter"] else []) ++
  (if a.uri_query_parameter.isSome then ["uri_query_parameter"] else [])

/-- admin.py lines 388-530, `update_enhanced_measurement_settings`:
guard on the admin client, build the sparse `FieldMask`, fail with the
`No fields provided to update` envelope (and no dispatch) when the mask
is empty, otherwise dispatch the partial update; a vendor failure
becomes the error envelope. The response formatting is the oracle's
`.ok` payload. -/
def update_enhanced_measurement_settings (env : Env) (a : UEMSArgs) :
    PyVal × List UEMSRequest :=
  if !env.admin_client then
    (errEnvelope "Google Analytics admin client not initialized", [])
  else
    let resource_name :=
      "properties/" ++ a.property_id ++ "/dataStreams/" ++ a.data_stream_id ++
        "/enhancedMeasurementSettings"
    let update_fields := uemsUpdateFields a
    if update_fields.isEmpty then
      (errEnvelope "No fields provided to update", [])
    else
      let request : UEMSRequest := { name := resource_name, update_mask := update_fields }
      match env.updateEMSRPC request with
      | .ok resp => (resp, [request])
      | .error e =>
        (errEnvelope ("Error updating enhanced measurement settings: " ++ e), [request])

/-! ## Helper lemmas -/

theorem tableGet_mem {k v : String} :
    ∀ {l : List (String × String)}, tableGet k l = some v → (k, v) ∈ l := by
  intro l
  induction l with
  | nil => intro h; simp [tableGet] at h
  | cons p rest ih =>
    obtain ⟨a, b⟩ := p
    intro h
    rw [tableGet] at h
    by_cases hk : a = k
    · simp only [hk, if_pos rfl] at h
      cases h
      subst hk
      exact List.mem_cons_self _ _
    · simp only [if_neg hk] at h
      exact List.mem_cons_of_mem _ (ih h)

theorem tableGet_eq_none {k : String} {l : List (String × String)}
    (h : ∀ p ∈ l, p.1 ≠ k) : tableGet k l = none := by
  induction l with
  | nil => rfl
  | cons p rest ih =>
    obtain ⟨a, b⟩ := p
    rw [tableGet, if_neg (h (a, b) (List.mem_cons_self _ _))]
    exact ih fun q hq => h q (List.mem_cons_of_mem _ hq)

/-- No value of the `key_mappings` table is itself a key of the table, so
a second application of `key_mappings.get(key, key)` never rewrites. -/
theorem mapFilterKey_idem (k : String) : mapFilterKey (mapFilterKey k) = mapFilterKey k := by
  unfold mapFilterKey
  cases ht : tableGet k filterKeyMappings with
  | none => simp [ht]
  | some v =>
    have hmem := tableGet_mem ht
    have hv : ∀ p ∈ filterKeyMappings, ∀ q ∈ filterKeyMappings, q.1 ≠ p.2 := by decide
    have hnone : tableGet v filterKeyMappings = none :=
      tableGet_eq_none fun q hq => hv _ hmem q hq
    simp [ht, hnone]

/-- Joint idempotence of the three normalization passes, by the
functional induction principle of the mutual definition. -/
theorem normalizeEntry_idem : ∀ v : PyVal,
    normalizeEntry (normalizeEntry v) = normalizeEntry v :=
  @normalizeEntry.induct
    (fun kvs => normalizePairs (normalizePairs kvs) = normalizePairs kvs)
    (fun v => normalizeEntry (normalizeEntry v) = normalizeEntry v)
    (fun xs => normalizeItems (normalizeItems xs) = normalizeItems xs)
    (by intro kvs ih; simp [normalizeEntry, ih])
    (by intro items ih; simp [normalizeEntry, ih])
    (by
      intro v h1 h2
      cases v with
      | vdict kvs => exact (h1 kvs rfl).elim
      | vlist items => exact (h2 items rfl).elim
      | vstr s => rfl
      | vint n => rfl
      | vbool b => rfl
      | vnone => rfl)
    rfl
    (by intro kvs rest ih1 ih2; simp [normalizeItems, ih1, ih2])
    (by
      intro head tail h ih
      cases head with
      | vdict kvs => exact (h kvs rfl).elim
      | vstr s => simp [normalizeItems, ih]
      | vint n => simp [normalizeItems, ih]
      | vbool b => simp [normalizeItems, ih]
      | vnone => simp [normalizeItems, ih]
      | vlist items => simp [normalizeItems, ih])
    rfl
    (by intro k v rest ih1 ih2; simp [normalizePairs, mapFilterKey_idem, ih1, ih2])

theorem normalizePairs_idem (kvs : List (String × PyVal)) :
    normalizePairs (normalizePairs kvs) = normalizePairs kvs := by
  have h := normalizeEntry_idem (.vdict kvs)
  simpa [normalizeEntry] using h

theorem pyStartsWith_append (p r : String) :
    pyStartsWith (r ++ p) r = true := by
  simp [pyStartsWith, String.toList]

/-- When the `filter` key is present, `build_filter_expression`
dispatches its value to the leaf branch — whatever other keys are
present. -/
theorem build_eq_buildLeaf {kvs : PyDict} {v : PyVal}
    (h : dlookup "filter" kvs = some v) :
    build_filter_expression kvs = buildLeaf v := by
  rw [build_filter_expression]
  split
  · simp_all
  · simp_all

/-- With none of the four discriminator keys present, the builder raises
`ValueError("Invalid filter configuration: ...")`. -/
theorem build_eq_invalid {kvs : PyDict}
    (h1 : dlookup "filter" kvs = none) (h2 : dlookup "and_group" kvs = none)
    (h3 : dlookup "or_group" kvs = none) (h4 : dlookup "not_expression" kvs = none) :
    build_filter_expression kvs = .error (.valueError "Invalid filter configuration") := by
  rw [build_filter_expression]
  repeat' split
  all_goals simp_all

/-- Without `filter`, a present `and_group` key is dispatched — whatever
other keys follow it in the elif chain. -/
theorem build_eq_of_and_group {kvs : PyDict} {v : PyVal}
    (h1 : dlookup "filter" kvs = none)
    (h2 : dlookup "and_group" kvs = some v) :
    build_filter_expression kvs = build_filter_expression [("and_group", v)] := by
  conv_lhs => rw [build_filter_expression]
  split
  · simp_all
  · split
    · rename_i ag heq
      rw [h2] at heq
      cases heq
      rw [build_filter_expression]
      rfl
    · rename_i x heq hnd
      rw [hnd] at h2
      cases h2
      rw [build_filter_expression]
      cases v with
      | vdict ag => exact (heq ag rfl).elim
      | vstr s => rfl
      | vint n => rfl
      | vbool b => rfl
      | vnone => rfl
      | vlist xs => rfl
    · simp_all

/-- Without `filter` and `and_group`, a present `or_group` key is
dispatched. -/
theorem build_eq_of_or_group {kvs : PyDict} {v : PyVal}
    (h1 : dlookup "filter" kvs = none)
    (h2 : dlookup "and_group" kvs = none)
    (h3 : dlookup "or_group" kvs = some v) :
    build_filter_expression kvs = build_filter_expression [("or_group", v)] := by
  conv_lhs => rw [build_filter_expression]
  split
  · simp_all
  · split
    · simp_all
    · simp_all
    · split
      · rename_i og heq
        rw [h3] at heq
        cases heq
        rw [build_filter_expression]
        rfl
      · rename_i x heq hnd
        rw [hnd] at h3
        cases h3
        rw [build_filter_expression]
        cases v with
        | vdict og => exact (heq og rfl).elim
        | vstr s => rfl
        | vint n => rfl
        | vbool b => rfl
        | vnone => rfl
        | vlist xs => rfl
      · simp_all

/-- With the first three discriminator keys absent, a present
`not_expression` key is dispatched. -/
theorem build_eq_of_not_expression {kvs : PyDict} {v : PyVal}
    (h1 : dlookup "filter" kvs = none)
    (h2 : dlookup "and_group" kvs = none)
    (h3 : dlookup "or_group" kvs = none)
    (h4 : dlookup "not_expression" kvs = some v) :
    build_filter_expression kvs = build_filter_expression [("not_expression", v)] := by
  conv_lhs => rw [build_filter_expression]
  split
  · simp_all
  · split
    · simp_all
    · simp_all
    · split
      · simp_all
      · simp_all
      · split
        · rename_i nd heq
          rw [h4] at heq
          cases heq
          conv_rhs => rw [build_filter_expression]
          rfl
        · rename_i x heq hnd
          rw [hnd] at h4
          cases h4
          rw [build_filter_expression]
          cases v with
          | vdict nd => exact (heq nd rfl).elim
          | vstr s => rfl
          | vint n => rfl
          | vbool b => rfl
          | vnone => rfl
          | vlist xs => rfl
        · simp_all

/-! ## Claim theorems -/

/-- C7: applying the key-casing normalizer `normalize_filter_keys` twice
yields the same result as applying it once, on every nested value —
every output key is already snake_case, so a second pass is a no-op. -/
theorem C7_normalize_filter_keys_idempotent (m : PyVal) :
    normalize_filter_keys (normalize_filter_keys m) = normalize_filter_keys m := by
  cases m with
  | vdict kvs => simp [normalize_filter_keys, normalizePairs_idem]
  | vstr s => rfl
  | vint n => rfl
  | vbool b => rfl
  | vnone => rfl
  | vlist xs => rfl

/-- C8 counterexample: `run_report` builds the property resource name
with an unconditional `f"properties/{property_id}"`, so the
already-qualified input `"properties/123"` produces the doubled path
`"properties/properties/123"`, not the same path that the bare id
`"123"` produces. -/
theorem C8_counterexample :
    (buildRunReportRequest
        { property_id := "properties/123", date_ranges := [],
          dimensions := [], metrics := [] }).property = "properties/properties/123"
    ∧ (buildRunReportRequest
        { property_id := "123", date_ranges := [],
          dimensions := [], metrics := [] }).property = "properties/123"
    ∧ (("properties/properties/123" : String) == "properties/123") = false :=
  ⟨rfl, rfl, by decide⟩

/-- C8 (amended): `format_property_id` promotes a bare id to the
qualified path and is idempotent on already-qualified input — so the
admin operations that call it accept both spellings — but `run_report`
prefixes `"properties/"` unconditionally, so it qualifies only bare
ids. -/
theorem C8_resource_path_normalization :
    format_property_id "123" = "properties/123"
    ∧ format_property_id "properties/123" = "properties/123"
    ∧ (∀ p, format_property_id (format_property_id p) = format_property_id p)
    ∧ (∀ a : RunReportArgs,
        (buildRunReportRequest a).property = "properties/" ++ a.property_id) := by
  refine ⟨rfl, by decide, fun p => ?_, fun a => rfl⟩
  unfold format_property_id
  by_cases h : pyStartsWith p "properties/" = true
  · simp [h]
  · simp [h, pyStartsWith_append]

/-- C1 counterexample: a node carrying both `"filter"` and `"and_group"`
does not fail — the `filter` branch wins and a leaf `FilterExpression`
is constructed, so presence of two discriminator keys is not a
construction error. -/
theorem C1_counterexample :
    build_filter_expression
      [("filter", .vdict [("field_name", .vstr "country"),
          ("string_filter", .vdict [("match_type", .vstr "EXACT"), ("value", .vstr "US")])]),
       ("and_group", .vdict [("expressions", .vlist [])])]
      = .ok (.leaf ⟨.vstr "country", .stringFilter .EXACT (.vstr "US") (.vbool false)⟩) := by
  rw [build_filter_expression]
  rfl

/-- C1 (amended): a node with zero of the four discriminator keys fails
with `InvalidArgument` (`ValueError`) and no `FilterExpression` is
constructed for it; but a node with several of them is not rejected:
the first present key in the fixed order `filter`, `and_group`,
`or_group`, `not_expression` is dispatched and every other key is
ignored — whichever of the four keys comes first, the node builds
exactly as the single-key node carrying just that key. -/
theorem C1_discriminator_dispatch (kvs : PyDict) :
    (dlookup "filter" kvs = none → dlookup "and_group" kvs = none →
      dlookup "or_group" kvs = none → dlookup "not_expression" kvs = none →
      build_filter_expression kvs = .error (.valueError "Invalid filter configuration"))
    ∧ (∀ v, dlookup "filter" kvs = some v →
        build_filter_expression kvs = build_filter_expression [("filter", v)])
    ∧ (∀ v, dlookup "filter" kvs = none → dlookup "and_group" kvs = some v →
        build_filter_expression kvs = build_filter_expression [("and_group", v)])
    ∧ (∀ v, dlookup "filter" kvs = none → dlookup "and_group" kvs = none →
        dlookup "or_group" kvs = some v →
        build_filter_expression kvs = build_filter_expression [("or_group", v)])
    ∧ (∀ v, dlookup "filter" kvs = none → dlookup "and_group" kvs = none →
        dlookup "or_group" kvs = none → dlookup "not_expression" kvs = some v →
        build_filter_expression kvs = build_filter_expression [("not_expression", v)]) := by
  refine ⟨build_eq_invalid, fun v hv => ?_,
          fun v h1 h2 => build_eq_of_and_group h1 h2,
          fun v h1 h2 h3 => build_eq_of_or_group h1 h2 h3,
          fun v h1 h2 h3 h4 => build_eq_of_not_expression h1 h2 h3 h4⟩
  rw [build_eq_buildLeaf hv,
      build_eq_buildLeaf (show dlookup "filter" [("filter", v)] = some v from rfl)]

theorem C1_discriminator_dispatch_witness :
    build_filter_expression [("limit", .vint 5)]
      = .error (.valueError "Invalid filter configuration")
    ∧ build_filter_expression
        [("filter", .vdict [("field_name", .vstr "x")]), ("or_group", .vnone)]
      = build_filter_expression [("filter", .vdict [("field_name", .vstr "x")])]
    ∧ build_filter_expression
        [("and_group", .vdict [("expressions", .vlist [])]),
         ("or_group", .vdict [("expressions", .vlist [])])]
      = build_filter_expression [("and_group", .vdict [("expressions", .vlist [])])]
    ∧ build_filter_expression
        [("or_group", .vdict [("expressions", .vlist [])]), ("not_expression", .vnone)]
      = build_filter_expression [("or_group", .vdict [("expressions", .vlist [])])]
    ∧ build_filter_expression
        [("not_expression", .vdict [("filter", .vdict [("field_name", .vstr "x")])]),
         ("unknown", .vint 1)]
      = build_filter_expression
          [("not_expression", .vdict [("filter", .vdict [("field_name", .vstr "x")])])] :=
  ⟨(C1_discriminator_dispatch _).1 rfl rfl rfl rfl,
   (C1_discriminator_dispatch _).2.1 _ rfl,
   (C1_discriminator_dispatch _).2.2.1 _ rfl rfl,
   (C1_discriminator_dispatch _).2.2.2.1 _ rfl rfl rfl,
   (C1_discriminator_dispatch _).2.2.2.2 _ rfl rfl rfl rfl⟩

/-- C2 counterexample: a numeric leaf whose value mapping contains
neither `int64_value` nor `double_value` does not fail with
`InvalidArgument` — the build succeeds and the `NumericValue` is simply
left unset. -/
theorem C2_counterexample :
    build_filter_expression
      [("filter", .vdict [("field_name", .vstr "eventCount"),
          ("numeric_filter", .vdict [("operation", .vstr "GREATER_THAN"),
            ("value", .vdict [])])])]
      = .ok (.leaf ⟨.vstr "eventCount", .numericFilter .GREATER_THAN .unset⟩) := by
  rw [build_filter_expression]
  rfl

/-- C2 (amended): for a numeric value mapping, `int64_value` is selected
when present, otherwise `double_value` when present; when neither key is
present no error is raised and the constructed `NumericValue` is left
unset (the proto default). -/
theorem C2_numeric_value_selection (m : PyDict) :
    (∀ v, dlookup "int64_value" m = some v → buildNumericValue m = .int64 v)
    ∧ (dlookup "int64_value" m = none →
        ∀ v, dlookup "double_value" m = some v → buildNumericValue m = .double v)
    ∧ (dlookup "int64_value" m = none → dlookup "double_value" m = none →
        buildNumericValue m = .unset) := by
  refine ⟨fun v hv => ?_, fun h1 v hv => ?_, fun h1 h2 => ?_⟩ <;>
    simp [buildNumericValue, *]

theorem C2_numeric_value_selection_witness :
    buildNumericValue [("int64_value", .vstr "100")] = .int64 (.vstr "100")
    ∧ buildNumericValue [("double_value", .vint 2)] = .double (.vint 2)
    ∧ buildNumericValue [] = .unset :=
  ⟨(C2_numeric_value_selection [("int64_value", .vstr "100")]).1 _ rfl,
   (C2_numeric_value_selection [("double_value", .vint 2)]).2.1 rfl _ rfl,
   (C2_numeric_value_selection []).2.2 rfl rfl⟩

/-- Whether a leaf predicate is the vendor schema's Empty predicate. -/
def isEmptyFilterPred : LeafPredicate → Bool
  | .emptyFilter => true
  | _ => false

/-- C3 counterexample: a leaf node carrying only an `empty_filter` key
yields a leaf with NO predicate set, not a leaf with the Empty predicate
— the builder has no `empty_filter` branch. -/
theorem C3_counterexample :
    build_filter_expression
      [("filter", .vdict [("field_name", .vstr "source"), ("empty_filter", .vdict [])])]
      = .ok (.leaf ⟨.vstr "source", .noPredicate⟩)
    ∧ isEmptyFilterPred .noPredicate = false := by
  constructor
  · rw [build_filter_expression]
    rfl
  · rfl

/-- C3 (amended): a leaf node builds the predicate of the first present
key among `string_filter`, `numeric_filter`, `between_filter`,
`in_list_filter` (each successful build carries the corresponding
predicate); `empty_filter` is not recognized, so a node with none of the
four recognized keys — including one carrying only `empty_filter` —
yields a leaf with no predicate set. -/
theorem C3_leaf_predicate_dispatch (fd : PyDict) :
    (∀ fn, dlookup "field_name" fd = some fn →
      dlookup "string_filter" fd = none → dlookup "numeric_filter" fd = none →
      dlookup "between_filter" fd = none → dlookup "in_list_filter" fd = none →
      build_filter_expression [("filter", .vdict fd)] = .ok (.leaf ⟨fn, .noPredicate⟩))
    ∧ (∀ sfv e, dlookup "string_filter" fd = some sfv →
        build_filter_expression [("filter", .vdict fd)] = .ok e →
        ∃ fn mt v cs, e = .leaf ⟨fn, .stringFilter mt v cs⟩)
    ∧ (∀ nfv e, dlookup "string_filter" fd = none →
        dlookup "numeric_filter" fd = some nfv →
        build_filter_expression [("filter", .vdict fd)] = .ok e →
        ∃ fn op nv, e = .leaf ⟨fn, .numericFilter op nv⟩)
    ∧ (∀ bfv e, dlookup "string_filter" fd = none → dlookup "numeric_filter" fd = none →
        dlookup "between_filter" fd = some bfv →
        build_filter_expression [("filter", .vdict fd)] = .ok e →
        ∃ fn fv tv, e = .leaf ⟨fn, .betweenFilter fv tv⟩)
    ∧ (∀ ilv e, dlookup "string_filter" fd = none → dlookup "numeric_filter" fd = none →
        dlookup "between_filter" fd = none → dlookup "in_list_filter" fd = some ilv →
        build_filter_expression [("filter", .vdict fd)] = .ok e →
        ∃ fn vs cs, e = .leaf ⟨fn, .inListFilter vs cs⟩) := by
  have hb : build_filter_expression [("filter", .vdict fd)] = buildLeaf (.vdict fd) :=
    build_eq_buildLeaf rfl
  refine ⟨?_, ?_, ?_, ?_, ?_⟩
  · intro fn hfn hs hn hbt hi
    rw [hb]
    simp [buildLeaf, asDict, keyGet, hfn, hs, hn, hbt, hi, Bind.bind, Except.bind]
    rfl
  · intro sfv e hsf h
    rw [hb] at h
    simp only [buildLeaf, asDict, keyGet, hsf, Bind.bind, Except.bind] at h
    repeat' split at h
    all_goals first
      | exact Except.noConfusion h
      | (cases h; exact ⟨_, _, _, _, rfl⟩)
  · intro nfv e hs hnf h
    rw [hb] at h
    simp only [buildLeaf, asDict, keyGet, hs, hnf, Bind.bind, Except.bind] at h
    repeat' split at h
    all_goals first
      | exact Except.noConfusion h
      | (cases h; exact ⟨_, _, _, rfl⟩)
  · intro bfv e hs hnf hbt h
    rw [hb] at h
    simp only [buildLeaf, asDict, keyGet, hs, hnf, hbt, Bind.bind, Except.bind] at h
    repeat' split at h
    all_goals first
      | exact Except.noConfusion h
      | (cases h; exact ⟨_, _, _, rfl⟩)
  · intro ilv e hs hnf hbt hil h
    rw [hb] at h
    simp only [buildLeaf, asDict, keyGet, hs, hnf, hbt, hil, Bind.bind, Except.bind] at h
    repeat' split at h
    all_goals first
      | exact Except.noConfusion h
      | (cases h; exact ⟨_, _, _, rfl⟩)

theorem C3_leaf_predicate_dispatch_witness :
    build_filter_expression
      [("filter", .vdict [("field_name", .vstr "country"), ("empty_filter", .vdict [])])]
      = .ok (.leaf ⟨.vstr "country", .noPredicate⟩)
    ∧ (∃ fn mt v cs,
        FilterExpr.leaf ⟨PyVal.vstr "country", .stringFilter .EXACT (.vstr "US") (.vbool false)⟩
          = .leaf ⟨fn, .stringFilter mt v cs⟩) :=
  ⟨(C3_leaf_predicate_dispatch _).1 _ rfl rfl rfl rfl rfl,
   (C3_leaf_predicate_dispatch
      [("field_name", .vstr "country"),
       ("string_filter", .vdict [("match_type", .vstr "EXACT"), ("value", .vstr "US")])]).2.1
     _ _ rfl (by rw [build_filter_expression]; rfl)⟩

/-- C6: `preprocess_list_param` returns the parsed array for a string
that `json.loads` parses as an array, wraps the original string as a
one-element list when the parse fails or yields a non-array value, and
returns `None` exactly when the input is `None`. -/
theorem C6_preprocess_list_param (loads : JsonLoads) (s : String) :
    (∀ xs, loads s = .ok (.vlist xs) → preprocess_list_param loads (.pstr s) = some xs)
    ∧ (∀ e, loads s = .error e → preprocess_list_param loads (.pstr s) = some [.vstr s])
    ∧ (∀ v, loads s = .ok v → (∀ xs, v ≠ .vlist xs) →
        preprocess_list_param loads (.pstr s) = some [.vstr s])
    ∧ preprocess_list_param loads .pnone = none
    ∧ (∀ p, preprocess_list_param loads p = none → p = .pnone) := by
  refine ⟨fun xs h => by simp [preprocess_list_param, h],
          fun e h => by simp [preprocess_list_param, h],
          fun v h hne => ?_, rfl, fun p hp => ?_⟩
  · cases v with
    | vlist xs => exact (hne xs rfl).elim
    | vstr s2 => simp [preprocess_list_param, h]
    | vint n => simp [preprocess_list_param, h]
    | vbool b => simp [preprocess_list_param, h]
    | vnone => simp [preprocess_list_param, h]
    | vdict kvs => simp [preprocess_list_param, h]
  · cases p with
    | pnone => rfl
    | plist xs => simp [preprocess_list_param] at hp
    | pstr s2 =>
      simp only [preprocess_list_param] at hp
      split at hp <;> simp_all

/-- A concrete `json.loads` behaviour for witnesses: one array-valued
string, one scalar-valued string, everything else a decode error. -/
def loadsStub : JsonLoads := fun s =>
  if s = "[1, 2]" then .ok (.vlist [.vint 1, .vint 2])
  else if s = "7" then .ok (.vint 7)
  else .error "Expecting value: line 1 column 1 (char 0)"

theorem C6_preprocess_list_param_witness :
    preprocess_list_param loadsStub (.pstr "[1, 2]") = some [.vint 1, .vint 2]
    ∧ preprocess_list_param loadsStub (.pstr "oops") = some [.vstr "oops"]
    ∧ preprocess_list_param loadsStub (.pstr "7") = some [.vstr "7"]
    ∧ preprocess_list_param loadsStub .pnone = none :=
  ⟨(C6_preprocess_list_param loadsStub "[1, 2]").1 _ rfl,
   (C6_preprocess_list_param loadsStub "oops").2.1 _ rfl,
   (C6_preprocess_list_param loadsStub "7").2.2.1 (.vint 7) rfl
     (fun xs h => PyVal.noConfusion h),
   (C6_preprocess_list_param loadsStub "x").2.2.2.1⟩

/-- C10: in the `run_report` request assembly a supplied `limit` or
`offset` of `0`, an empty `currency_code`, and empty
`dimension_filter`/`metric_filter` mappings are all treated exactly like
omitted parameters (the field stays unset), and only strictly nonzero
`limit`/`offset` values are copied into the request. -/
theorem C10_falsy_params_dropped (a : RunReportArgs) :
    buildRunReportRequest { a with limit := some 0 }
      = buildRunReportRequest { a with limit := none }
    ∧ buildRunReportRequest { a with offset := some 0 }
      = buildRunReportRequest { a with offset := none }
    ∧ buildRunReportRequest { a with currency_code := some "" }
      = buildRunReportRequest { a with currency_code := none }
    ∧ buildRunReportRequest { a with dimension_filter := some [] }
      = buildRunReportRequest { a with dimension_filter := none }
    ∧ buildRunReportRequest { a with metric_filter := some [] }
      = buildRunReportRequest { a with metric_filter := none }
    ∧ (∀ n : Int, n ≠ 0 →
        (buildRunReportRequest { a with limit := some n }).limit = some n)
    ∧ (∀ n : Int, n ≠ 0 →
        (buildRunReportRequest { a with offset := some n }).offset = some n) := by
  refine ⟨rfl, rfl, rfl, rfl, rfl, fun n hn => ?_, fun n hn => ?_⟩ <;>
    simp [buildRunReportRequest, truthyOptInt, hn]

theorem C10_falsy_params_dropped_witness :
    (buildRunReportRequest
      { property_id := "123", date_ranges := [], dimensions := [], metrics := [],
        limit := some 5 }).limit = some 5 :=
  (C10_falsy_params_dropped
    { property_id := "123", date_ranges := [], dimensions := [], metrics := [] }
    ).2.2.2.2.2.1 5 (by decide)

theorem mem_if_singleton {c : Prop} [Decidable c] {a b : String} :
    (a ∈ if c then [b] else ([] : List String)) ↔ (c ∧ a = b) := by
  split_ifs <;> simp_all

/-- C9: with the admin client initialized,
`update_enhanced_measurement_settings` with none of the ten optional
fields supplied returns the `No fields provided to update` envelope and
dispatches nothing; with at least one field supplied it dispatches
exactly one partial update whose field mask is `uemsUpdateFields a`,
which contains exactly the names of the supplied fields. -/
theorem C9_update_fields_mask (env : Env) (a : UEMSArgs)
    (h : env.admin_client = true) :
    (uemsUpdateFields a = [] →
      update_enhanced_measurement_settings env a
        = (errEnvelope "No fields provided to update", []))
    ∧ (uemsUpdateFields a ≠ [] →
        (update_enhanced_measurement_settings env a).2
          = [{ name := "properties/" ++ a.property_id ++ "/dataStreams/" ++
                a.data_stream_id ++ "/enhancedMeasurementSettings",
               update_mask := uemsUpdateFields a }])
    ∧ ("stream_enabled" ∈ uemsUpdateFields a ↔ a.stream_enabled.isSome = true)
    ∧ ("scrolls_enabled" ∈ uemsUpdateFields a ↔ a.scrolls_enabled.isSome = true)
    ∧ ("outbound_clicks_enabled" ∈ uemsUpdateFields a ↔ a.outbound_clicks_enabled.isSome = true)
    ∧ ("site_search_enabled" ∈ uemsUpdateFields a ↔ a.site_search_enabled.isSome = true)
    ∧ ("video_engagement_enabled" ∈ uemsUpdateFields a ↔ a.video_engagement_enabled.isSome = true)
    ∧ ("file_downloads_enabled" ∈ uemsUpdateFields a ↔ a.file_downloads_enabled.isSome = true)
    ∧ ("page_changes_enabled" ∈ uemsUpdateFields a ↔ a.page_changes_enabled.isSome = true)
    ∧ ("form_interactions_enabled" ∈ uemsUpdateFields a ↔ a.form_interactions_enabled.isSome = true)
    ∧ ("search_query_parameter" ∈ uemsUpdateFields a ↔ a.search_query_parameter.isSome = true)
    ∧ ("uri_query_parameter" ∈ uemsUpdateFields a ↔ a.uri_query_parameter.isSome = true)
    ∧ (∀ f ∈ uemsUpdateFields a,
        f ∈ ["stream_enabled", "scrolls_enabled", "outbound_clicks_enabled",
             "site_search_enabled", "video_engagement_enabled", "file_downloads_enabled",
             "page_changes_enabled", "form_interactions_enabled",
             "search_query_parameter", "uri_query_parameter"]) := by
  refine ⟨fun hempty => ?_, fun hne => ?_, ?_, ?_, ?_, ?_, ?_, ?_, ?_, ?_, ?_, ?_, ?_⟩
  · simp [update_enhanced_measurement_settings, h, hempty]
  · have hie : (uemsUpdateFields a).isEmpty = false := by
      cases he : uemsUpdateFields a with
      | nil => exact (hne he).elim
      | cons x xs => rfl
    simp [update_enhanced_measurement_settings, h, hie]
    split <;> rfl
  · simp [uemsUpdateFields, List.mem_append, mem_if_singleton]
  · simp [uemsUpdateFields, List.mem_append, mem_if_singleton]
  · simp [uemsUpdateFields, List.mem_append, mem_if_singleton]
  · simp [uemsUpdateFields, List.mem_append, mem_if_singleton]
  · simp [uemsUpdateFields, List.mem_append, mem_if_singleton]
  · simp [uemsUpdateFields, List.mem_append, mem_if_singleton]
  · simp [uemsUpdateFields, List.mem_append, mem_if_singleton]
  · simp [uemsUpdateFields, List.mem_append, mem_if_singleton]
  · simp [uemsUpdateFields, List.mem_append, mem_if_singleton]
  · simp [uemsUpdateFields, List.mem_append, mem_if_singleton]
  · intro f hf
    simp only [uemsUpdateFields, List.mem_append, mem_if_singleton] at hf
    simp only [List.mem_cons, List.not_mem_nil, or_false]
    tauto

/-- A concrete environment with both clients initialized, for
witnesses. -/
def envAdmin : Env where
  analytics_client := true
  admin_client := true
  default_property_id := none
  parse_date := fun s => s
  runReportRPC := fun _ => .error "offline"
  listAccountSummariesRPC := .error "offline"
  updateEMSRPC := fun _ => .ok .vnone

theorem C9_update_fields_mask_witness :
    update_enhanced_measurement_settings envAdmin
      { property_id := "123", data_stream_id := "456" }
      = (errEnvelope "No fields provided to update", [])
    ∧ (update_enhanced_measurement_settings envAdmin
        { property_id := "123", data_stream_id := "456",
          stream_enabled := some true }).2
      = [{ name := "properties/123/dataStreams/456/enhancedMeasurementSettings",
           update_mask := ["stream_enabled"] }] :=
  ⟨(C9_update_fields_mask envAdmin
      { property_id := "123", data_stream_id := "456" } rfl).1 rfl,
   (C9_update_fields_mask envAdmin
      { property_id := "123", data_stream_id := "456",
        stream_enabled := some true } rfl).2.1 (by decide)⟩

/-- A `json.loads` behaviour on which every parse fails, for
counterexamples and witnesses. -/
def loadsFail : JsonLoads := fun _ => .error "Expecting value: line 1 column 1 (char 0)"

/-- The pre-initialization environment: both client singletons are still
`None`. -/
def envUninit : Env where
  analytics_client := false
  admin_client := false
  default_property_id := some "123"
  parse_date := fun s => s
  runReportRPC := fun _ => .error "unreachable"
  listAccountSummariesRPC := .error "unreachable"
  updateEMSRPC := fun _ => .error "unreachable"

/-- The filter argument either is falsy (skipped) or preprocesses without
raising. -/
def filterParamOk (loads : JsonLoads) (p : DictParam) : Prop :=
  ∃ d, preprocess_dict_param loads p = .ok d

/-- C4 counterexample: a malformed JSON string supplied as
`metric_filter` to the legacy `get_report` tool is NOT converted to an
error envelope — `preprocess_dict_param` runs before the `try` block and
its `ValueError` propagates out of the tool as an unhandled fault. -/
theorem C4_counterexample :
    get_report loadsFail envAdmin
      { start_date := "2025-01-01", end_date := "2025-01-31",
        metrics := .plist [.vstr "activeUsers"], metric_filter := .pstr "oops" }
      = .error (.valueError
          "Invalid JSON string for filter parameter: Expecting value: line 1 column 1 (char 0)") := rfl

/-- C4 (amended): errors arising inside the tool bodies after parameter
preprocessing are converted to the error envelope — `run_report` turns
every vendor failure into an envelope, and legacy `get_report` returns a
value (never a fault) whenever its filter preprocessing succeeds; only a
filter argument whose preprocessing raises escapes `get_report`
uncaught. -/
theorem C4_envelope_conversion (env : Env) (a : RunReportArgs)
    (loads : JsonLoads) (g : GetReportArgs) :
    (∀ e, env.analytics_client = true →
      env.runReportRPC (buildRunReportRequest a) = .error e →
      run_report env a
        = (errEnvelope ("Error running report: " ++ e), [buildRunReportRequest a]))
    ∧ (filterParamOk loads g.dimension_filter → filterParamOk loads g.metric_filter →
        ∃ r, get_report loads env g = .ok r) := by
  constructor
  · intro e hc hrpc
    simp [run_report, hc, hrpc]
  · rintro ⟨d1, h1⟩ ⟨d2, h2⟩
    have e1 : (if truthyDictParam g.dimension_filter = true
          then preprocess_dict_param loads g.dimension_filter else pure none)
        = .ok (if truthyDictParam g.dimension_filter = true then d1 else none) := by
      split_ifs with t
      · exact h1
      · rfl
    have e2 : (if truthyDictParam g.metric_filter = true
          then preprocess_dict_param loads g.metric_filter else pure none)
        = .ok (if truthyDictParam g.metric_filter = true then d2 else none) := by
      split_ifs with t
      · exact h2
      · rfl
    simp only [get_report, Bind.bind, Except.bind, e1, e2]
    repeat' split
    any_goals exact ⟨_, rfl⟩
    all_goals simp_all [pure, Except.pure]

theorem C4_envelope_conversion_witness :
    run_report envAdmin
      { property_id := "123", date_ranges := [], dimensions := [], metrics := [] }
      = (errEnvelope "Error running report: offline",
         [buildRunReportRequest
           { property_id := "123", date_ranges := [], dimensions := [], metrics := [] }])
    ∧ ∃ r, get_report loadsFail envAdmin
        { start_date := "today", end_date := "today",
          metrics := .plist [.vstr "activeUsers"] } = .ok r :=
  ⟨(C4_envelope_conversion envAdmin
      { property_id := "123", date_ranges := [], dimensions := [], metrics := [] }
      loadsFail
      { start_date := "today", end_date := "today",
        metrics := .plist [.vstr "activeUsers"] }).1 "offline" rfl rfl,
   (C4_envelope_conversion envAdmin
      { property_id := "123", date_ranges := [], dimensions := [], metrics := [] }
      loadsFail
      { start_date := "today", end_date := "today",
        metrics := .plist [.vstr "activeUsers"] }).2 ⟨none, rfl⟩ ⟨none, rfl⟩⟩

/-- C5 counterexample: with the client singleton uninitialized, legacy
`get_report` given a malformed `dimension_filter` string raises an
uncaught `ValueError` instead of returning the not-initialized error
envelope — so not every tool returns the envelope immediately regardless
of the other arguments. -/
theorem C5_counterexample :
    envUninit.analytics_client = false
    ∧ get_report loadsFail envUninit
        { start_date := "7daysAgo", end_date := "today",
          metrics := .plist [.vstr "activeUsers"], dimension_filter := .pstr "oops" }
        = .error (.valueError
            "Invalid JSON string for filter parameter: Expecting value: line 1 column 1 (char 0)") :=
  ⟨rfl, rfl⟩

/-- C5 (amended): with the client singleton uninitialized, every tool
that guards directly (`run_report`, `get_account_summaries`,
`update_enhanced_measurement_settings`) returns the not-initialized
error envelope immediately and dispatches zero vendor calls; legacy
`get_report` — whose guard sits inside the delegated `run_report` —
also returns an error envelope with zero vendor calls provided its
filter preprocessing does not raise first. -/
theorem C5_uninitialized_guard (env : Env) (a : RunReportArgs) (u : UEMSArgs)
    (loads : JsonLoads) (g : GetReportArgs) :
    (env.analytics_client = false →
      run_report env a = (errEnvelope "Google Analytics client not initialized", []))
    ∧ (env.admin_client = false →
        get_account_summaries env
          = (errEnvelope "Google Analytics admin client not initialized", 0))
    ∧ (env.admin_client = false →
        update_enhanced_measurement_settings env u
          = (errEnvelope "Google Analytics admin client not initialized", []))
    ∧ (env.analytics_client = false →
        filterParamOk loads g.dimension_filter → filterParamOk loads g.metric_filter →
        ∃ msg, get_report loads env g = .ok (errEnvelope msg, [])) := by
  refine ⟨fun hc => by simp [run_report, hc],
          fun hc => by simp [get_account_summaries, hc],
          fun hc => by simp [update_enhanced_measurement_settings, hc],
          fun hc hdf hmf => ?_⟩
  obtain ⟨d1, h1⟩ := hdf
  obtain ⟨d2, h2⟩ := hmf
  have e1 : (if truthyDictParam g.dimension_filter = true
        then preprocess_dict_param loads g.dimension_filter else pure none)
      = .ok (if truthyDictParam g.dimension_filter = true then d1 else none) := by
    split_ifs with t
    · exact h1
    · rfl
  have e2 : (if truthyDictParam g.metric_filter = true
        then preprocess_dict_param loads g.metric_filter else pure none)
      = .ok (if truthyDictParam g.metric_filter = true then d2 else none) := by
    split_ifs with t
    · exact h2
    · rfl
  have hr : ∀ args : RunReportArgs,
      run_report env args = (errEnvelope "Google Analytics client not initialized", []) :=
    fun args => by simp [run_report, hc]
  have hat : ∀ dr msg, attachParsedDates dr (errEnvelope msg) = errEnvelope msg :=
    fun dr msg => rfl
  simp only [get_report, Bind.bind, Except.bind, e1, e2, hr, hat]
  repeat' split
  any_goals exact ⟨_, rfl⟩
  all_goals simp_all [pure, Except.pure]

theorem C5_uninitialized_guard_witness :
    run_report envUninit
      { property_id := "123", date_ranges := [], dimensions := [], metrics := [] }
      = (errEnvelope "Google Analytics client not initialized", [])
    ∧ get_account_summaries envUninit
      = (errEnvelope "Google Analytics admin client not initialized", 0)
    ∧ update_enhanced_measurement_settings envUninit
        { property_id := "123", data_stream_id := "456" }
      = (errEnvelope "Google Analytics admin client not initialized", [])
    ∧ ∃ msg, get_report loadsFail envUninit
        { start_date := "today", end_date := "today", metrics := .plist [.vstr "activeUsers"] }
        = .ok (errEnvelope msg, []) :=
  ⟨(C5_uninitialized_guard envUninit
      { property_id := "123", date_ranges := [], dimensions := [], metrics := [] }
      { property_id := "123", data_stream_id := "456" } loadsFail
      { start_date := "today", end_date := "today",
        metrics := .plist [.vstr "activeUsers"] }).1 rfl,
   (C5_uninitialized_guard envUninit
      { property_id := "123", date_ranges := [], dimensions := [], metrics := [] }
      { property_id := "123", data_stream_id := "456" } loadsFail
      { start_date := "today", end_date := "today",
        metrics := .plist [.vstr "activeUsers"] }).2.1 rfl,
   (C5_uninitialized_guard envUninit
      { property_id := "123", date_ranges := [], dimensions := [], metrics := [] }
      { property_id := "123", data_stream_id := "456" } loadsFail
      { start_date := "today", end_date := "today",
        metrics := .plist [.vstr "activeUsers"] }).2.2.1 rfl,
   (C5_uninitialized_guard envUninit
      { property_id := "123", date_ranges := [], dimensions := [], metrics := [] }
      { property_id := "123", data_stream_id := "456" } loadsFail
      { start_date := "today", end_date := "today",
        metrics := .plist [.vstr "activeUsers"] }).2.2.2 rfl ⟨none, rfl⟩ ⟨none, rfl⟩⟩

end GAMCP
